import Mathlib

/-
Verification of the Open Collaboration Tools session control plane:
the Session Connection Orchestrator (collaboration-room-service.ts),
the Automation Control Endpoint (automation-service.ts and its two
captured variants) and the Registration Retry Notifier
(notifyBackendWithRetry in the extension entry point).

Each definition is a shallow embedding of the corresponding TypeScript
function; asynchronous effects are modelled by explicit state passing,
environments of externally-chosen outcomes (Except values for awaited
calls that may throw) and ordered effect traces.
-/

namespace OCT

/- ========================================================================
   Orchestrator error reporting.
   Source: collaboration-room-service.ts, lines 332-346, showError.
   ======================================================================== -/

/-- Outcome of the error-reporting branch of the Orchestrator, one of:
silently ignoring the error, a neutral informational cancellation notice,
or a visible failure message flavoured by the operation kind. -/
inductive ErrorOutcome where
  | silentIgnore
  | cancelledNotice
  | createFailureMessage
  | joinFailureMessage
  deriving DecidableEq, Repr

/-- Embedding of showError: first checks the outer token, then the inner
(caller) token, then the operation kind, exactly as the source does. -/
def showError (create : Bool) (outerCancelled : Bool) (innerCancelled : Bool) : ErrorOutcome :=
  if outerCancelled then ErrorOutcome.silentIgnore
  else if innerCancelled then ErrorOutcome.cancelledNotice
  else if create then ErrorOutcome.createFailureMessage
  else ErrorOutcome.joinFailureMessage

/- ========================================================================
   Host-context excerpt window.
   Source: part_001 lines 280-303 and part_002 lines 296-319,
   handleGetHostContext.  Cursor line and total line count are modelled as
   integers, matching JavaScript arithmetic where cursorLine - 5 may be
   negative before the clamp.
   ======================================================================== -/

/-- Value of the contextRange constant in handleGetHostContext. -/
def contextRange : Int := 5

/-- Line-range portion of the host-context response. -/
structure HostContextRange where
  startLine : Int
  endLine : Int
  totalLines : Int
  deriving DecidableEq, Repr

/-- Embedding of the range computation in handleGetHostContext:
startLine = Math.max(0, cursorLine - contextRange),
endLine = Math.min(totalLines - 1, cursorLine + contextRange). -/
def hostContextRange (cursorLine totalLines : Int) : HostContextRange :=
  { startLine := max 0 (cursorLine - contextRange)
    endLine := min (totalLines - 1) (cursorLine + contextRange)
    totalLines := totalLines }

/- ========================================================================
   Registration Retry Notifier.
   Source: part_000 lines 1091-1152, notifyBackendWithRetry.
   The loop is embedded with the attempt counter made explicit and the
   network outcome of each attempt supplied by an environment function
   ok : Nat -> Bool (true = response.ok; false covers a non-2xx response,
   a timeout abort, and a network error, all of which the source treats
   identically for the purpose of retrying).
   ======================================================================== -/

/-- Value of maxRetries in notifyBackendWithRetry. -/
def maxRetries : Nat := 20

/-- Value of initialDelay (milliseconds) in notifyBackendWithRetry. -/
def initialDelay : Nat := 1000

/-- Value of maxDelay (milliseconds) in notifyBackendWithRetry. -/
def maxDelay : Nat := 30000

/-- Delay computed at the bottom of the retry loop after failed attempt
number attempt: Math.min(initialDelay * Math.pow(2, attempt - 1), maxDelay). -/
def backoffDelay (attempt : Nat) : Nat :=
  min (initialDelay * 2 ^ (attempt - 1)) maxDelay

/-- Observable trace of one run of the notifier: the attempt numbers at
which a fetch call is issued, the delays waited between attempts (in
order), and whether the run ended in success. -/
structure RetryRun where
  fetchCalls : List Nat
  delays : List Nat
  succeeded : Bool
  deriving DecidableEq, Repr

/-- Embedding of the for-loop of notifyBackendWithRetry, with explicit
fuel (the loop runs attempts 1..maxRetries, so fuel maxRetries from
attempt 1 covers every iteration).  On success the loop returns at once;
on failure it waits backoffDelay attempt only when attempt < maxRetries,
then retries. -/
def notifyLoop (ok : Nat → Bool) : Nat → Nat → RetryRun
  | 0, _ => { fetchCalls := [], delays := [], succeeded := false }
  | fuel + 1, attempt =>
    if ok attempt then
      { fetchCalls := [attempt], delays := [], succeeded := true }
    else if attempt < maxRetries then
      let rest := notifyLoop ok fuel (attempt + 1)
      { fetchCalls := attempt :: rest.fetchCalls
        delays := backoffDelay attempt :: rest.delays
        succeeded := rest.succeeded }
    else
      { fetchCalls := [attempt], delays := [], succeeded := false }

/-- Embedding of notifyBackendWithRetry: the loop starts at attempt 1.
Every failure mode of an attempt is caught inside the loop body, so the
function always returns normally; the embedding is accordingly total. -/
def notifyBackendWithRetry (ok : Nat → Bool) : RetryRun :=
  notifyLoop ok maxRetries 1

lemma notifyLoop_delays_get (ok : Nat → Bool) :
    ∀ fuel a i d, (notifyLoop ok fuel a).delays[i]? = some d →
      d = backoffDelay (a + i) := by
  intro fuel
  induction fuel with
  | zero =>
    intro a i d h
    simp [notifyLoop] at h
  | succ n ih =>
    intro a i d h
    by_cases hok : ok a
    · simp [notifyLoop, hok] at h
    · by_cases hlt : a < maxRetries
      · simp only [notifyLoop, hok, hlt, if_true, if_false, Bool.false_eq_true] at h
        cases i with
        | zero =>
          simp at h
          rw [Nat.add_zero]
          exact h.symm
        | succ j =>
          simp at h
          have hj := ih (a + 1) j d h
          rw [hj]
          congr 1
          omega
      · simp [notifyLoop, hok, hlt] at h

lemma notifyLoop_calls_le (ok : Nat → Bool) :
    ∀ fuel a, (notifyLoop ok fuel a).fetchCalls.length ≤ fuel := by
  intro fuel
  induction fuel with
  | zero =>
    intro a
    simp [notifyLoop]
  | succ n ih =>
    intro a
    by_cases hok : ok a
    · simp [notifyLoop, hok]
    · by_cases hlt : a < maxRetries
      · simp only [notifyLoop, hok, hlt, if_true, if_false, Bool.false_eq_true]
        simpa using Nat.succ_le_succ (ih (a + 1))
      · simp [notifyLoop, hok, hlt]

/-- C3: for every attempt index k with 2 <= k <= 20, the delay the
Registration Retry Notifier waits before attempt k equals
min(1000 * 2^(k-2), 30000) milliseconds, and no run ever issues more
than 20 network calls (so after the 20th failed attempt no further calls
are made; the embedding returning a RetryRun for every environment
reflects that the function returns normally without throwing). -/
theorem notifyBackendWithRetry_backoff (ok : Nat → Bool) (k d : Nat)
    (h2 : 2 ≤ k) (hd : (notifyBackendWithRetry ok).delays[(k - 2)]? = some d) :
    d = min (1000 * 2 ^ (k - 2)) 30000 ∧
    (notifyBackendWithRetry ok).fetchCalls.length ≤ 20 := by
  constructor
  · have h1 := notifyLoop_delays_get ok maxRetries 1 (k - 2) d hd
    rw [h1]
    have h3 : 1 + (k - 2) - 1 = k - 2 := by omega
    simp [backoffDelay, initialDelay, maxDelay, h3]
  · exact notifyLoop_calls_le ok maxRetries 1

/-- Witness for C3: in the run where every attempt fails, the delay
recorded before attempt 7 (index 5 of the delay list) is
min(1000 * 2^5, 30000) = 30000, and at most 20 calls are made. -/
theorem notifyBackendWithRetry_backoff_witness :
    30000 = min (1000 * 2 ^ (7 - 2)) 30000 ∧
    (notifyBackendWithRetry (fun _ => false)).fetchCalls.length ≤ 20 :=
  notifyBackendWithRetry_backoff (fun _ => false) 7 30000 (by decide) (by decide)

/-- C4: the Orchestrator error reporting is a total three-way case split
on the two cancellation sources: outer cancelled gives silent ignore;
otherwise inner cancelled gives a neutral cancellation notice; otherwise
a visible failure message flavoured by the operation kind. -/
theorem showError_case_split (create outer inner : Bool) :
    (outer = true → showError create outer inner = ErrorOutcome.silentIgnore) ∧
    (outer = false → inner = true → showError create outer inner = ErrorOutcome.cancelledNotice) ∧
    (outer = false → inner = false → create = true →
      showError create outer inner = ErrorOutcome.createFailureMessage) ∧
    (outer = false → inner = false → create = false →
      showError create outer inner = ErrorOutcome.joinFailureMessage) := by
  cases create <;> cases outer <;> cases inner <;> simp [showError]

/-- Witness for C4: with the outer scope intact, no caller cancellation
and a create operation, a visible create-flavoured failure is shown. -/
theorem showError_case_split_witness :
    showError true false false = ErrorOutcome.createFailureMessage :=
  (showError_case_split true false false).2.2.1 rfl rfl rfl

/-- C7: the host-context query computes startLine = max(0, c - 5) and
endLine = min(totalLines - 1, c + 5), and for any cursor line c with
0 <= c < totalLines the window stays within file bounds and contains the
cursor line. -/
theorem hostContextRange_clamped (c tl : Int) (h0 : 0 ≤ c) (h1 : c < tl) :
    (hostContextRange c tl).startLine = max 0 (c - 5) ∧
    (hostContextRange c tl).endLine = min (tl - 1) (c + 5) ∧
    (hostContextRange c tl).totalLines = tl ∧
    0 ≤ (hostContextRange c tl).startLine ∧
    (hostContextRange c tl).startLine ≤ c ∧
    c ≤ (hostContextRange c tl).endLine ∧
    (hostContextRange c tl).endLine ≤ tl - 1 := by
  refine ⟨rfl, rfl, rfl, ?_, ?_, ?_, ?_⟩ <;>
    simp [hostContextRange, contextRange] <;> omega

/-- Witness for C7: a 3-line file with the cursor at line 1 yields
startLine = 0, endLine = 2, totalLines = 3. -/
theorem hostContextRange_clamped_witness :
    hostContextRange 1 3 = { startLine := 0, endLine := 2, totalLines := 3 } ∧
    0 ≤ (hostContextRange 1 3).startLine :=
  ⟨by decide, (hostContextRange_clamped 1 3 (by decide) (by decide)).2.2.2.1⟩

/- ========================================================================
   Automation Control Endpoint request processing.
   Source: automation-service.ts lines 104-162 (handleRequest body end and
   processRequest); the part_001/part_002 variants differ only in the
   extra getHostContext member of the action union, which their
   processRequest switch does not handle, so it falls to the default
   branch exactly like any other unknown action.
   ======================================================================== -/

/-- Parsed action field of an automation request; unknownAction covers
every string other than create and join (including getHostContext in the
later variants, whose switch has no case for it). -/
inductive ActionTag where
  | create
  | join
  | unknownAction (name : String)
  deriving DecidableEq, Repr

/-- Parsed JSON body of an automation request (AutomationRequest in the
source).  A missing roomId field is none; JavaScript treats the empty
string as falsy as well, which the embedding of processRequest mirrors. -/
structure AutomationRequest where
  action : ActionTag
  roomId : Option String
  serverUrl : Option String
  deriving DecidableEq, Repr

/-- Response body sent by the endpoint (AutomationResponse in the source);
absent optional JSON fields are none. -/
structure AutomationResponse where
  success : Bool
  roomId : Option String
  serverUrl : Option String
  error : Option String
  deriving DecidableEq, Repr

/-- Embedding of processRequest.  The create and join delegates
(handleCreateRoom / handleJoinRoom) are awaited calls whose results are
supplied by the environment; the join branch first rejects a falsy
roomId with the fixed error string, and the default branch rejects any
unknown action. -/
def processRequest (createResult : AutomationResponse)
    (joinResult : String → AutomationResponse)
    (req : AutomationRequest) : AutomationResponse :=
  match req.action with
  | ActionTag.create => createResult
  | ActionTag.join =>
    match req.roomId with
    | none =>
      { success := false, roomId := none, serverUrl := none
        error := some "roomId is required for join action" }
    | some "" =>
      { success := false, roomId := none, serverUrl := none
        error := some "roomId is required for join action" }
    | some rid => joinResult rid
  | ActionTag.unknownAction name =>
    { success := false, roomId := none, serverUrl := none
      error := some ("Unknown action: " ++ name) }

/-- Embedding of the request-body end handler in handleRequest: parsing
the body either yields a request (Except.ok) or throws (Except.error with
the thrown message); a parse failure is caught and answered with status
400 and a structured error body, otherwise processRequest runs and the
status is 200 when the response has success true and 400 otherwise.
The result is the pair (HTTP status, response body). -/
def handleRequestEnd (parsed : Except String AutomationRequest)
    (createResult : AutomationResponse)
    (joinResult : String → AutomationResponse) : Nat × AutomationResponse :=
  match parsed with
  | Except.error msg =>
    (400, { success := false, roomId := none, serverUrl := none
            error := some ("Invalid request: " ++ msg) })
  | Except.ok req =>
    let response := processRequest createResult joinResult req
    (if response.success then 200 else 400, response)

/-- C6: a join request with no roomId is answered with status 400 and the
fixed error body; for every request the status is 200 exactly when the
response body has success true and 400 exactly when it has success false;
and a body that fails to parse is answered with status 400 and a
structured error body (the listener handler returns normally in every
case, so it never crashes). -/
theorem handleRequestEnd_status_contract (parsed : Except String AutomationRequest)
    (createResult : AutomationResponse) (joinResult : String → AutomationResponse) :
    (handleRequestEnd
        (Except.ok { action := ActionTag.join, roomId := none, serverUrl := none })
        createResult joinResult =
      (400, { success := false, roomId := none, serverUrl := none
              error := some "roomId is required for join action" })) ∧
    ((handleRequestEnd parsed createResult joinResult).1 = 200 ↔
      (handleRequestEnd parsed createResult joinResult).2.success = true) ∧
    ((handleRequestEnd parsed createResult joinResult).1 = 400 ↔
      (handleRequestEnd parsed createResult joinResult).2.success = false) ∧
    (∀ msg, handleRequestEnd (Except.error msg) createResult joinResult =
      (400, { success := false, roomId := none, serverUrl := none
              error := some ("Invalid request: " ++ msg) })) := by
  refine ⟨rfl, ?_, ?_, fun msg => rfl⟩ <;>
  · rcases parsed with msg | req
    · simp [handleRequestEnd]
    · rcases req with ⟨action, roomId, serverUrl⟩
      rcases action with _ | _ | name
      · by_cases h : (processRequest createResult joinResult
            { action := ActionTag.create, roomId := roomId, serverUrl := serverUrl }).success <;>
          simp [handleRequestEnd, h]
      · rcases roomId with _ | rid
        · simp [handleRequestEnd, processRequest]
        · rcases rid with ⟨chars⟩
          rcases chars with _ | ⟨c, rest⟩
          · simp [handleRequestEnd, processRequest]
          · by_cases h : (joinResult (String.mk (c :: rest))).success <;>
              simp [handleRequestEnd, processRequest, h]
      · simp [handleRequestEnd, processRequest]

/- ========================================================================
   Automation Control Endpoint bind address.
   Source: automation-service.ts line 75 (listen on 127.0.0.1) versus
   part_001 line 92 and part_002 line 92 (listen on 0.0.0.0).
   ======================================================================== -/

/-- Host address passed to server.listen in automation-service.ts. -/
def listenHost : String := "127.0.0.1"

/-- Host address passed to server.listen in the part_001 and part_002
variants of AutomationService.startServer. -/
def listenHostVariant : String := "0.0.0.0"

/-- Origin of an incoming TCP connection, abstracted to whether it comes
from the loopback interface or from some other network interface. -/
inductive NetSource where
  | loopback
  | remote
  deriving DecidableEq, Repr

/-- Modelled from the spec: the OS-level TCP bind semantics behind
server.listen(port, host), which is not part of the captured sources.
Per the loopback-bind reading of the spec, a listener bound to 127.0.0.1
accepts only connections arriving on the loopback interface, while a
listener bound to the wildcard address 0.0.0.0 accepts connections from
every interface. -/
def acceptsConnection (bindHost : String) (src : NetSource) : Bool :=
  if bindHost = "0.0.0.0" then true
  else if bindHost = "127.0.0.1" then
    match src with
    | NetSource.loopback => true
    | NetSource.remote => false
  else false

/-- C5 counterexample: the part_001/part_002 variant of startServer does
not bind to 127.0.0.1; it binds to the wildcard address 0.0.0.0 and
accepts a connection from a non-loopback interface, so the listener is
not reachable only from the local machine. -/
theorem listenHostVariant_not_loopback :
    listenHostVariant ≠ "127.0.0.1" ∧
    acceptsConnection listenHostVariant NetSource.remote = true := by
  constructor
  · decide
  · rfl

/-- C5 amended: the automation-service.ts variant of startServer binds to
127.0.0.1 and accepts only loopback-sourced connections, while the
part_001/part_002 variants bind to 0.0.0.0 and accept connections from
every interface. -/
theorem startServer_bind_hosts :
    listenHost = "127.0.0.1" ∧
    (∀ src, acceptsConnection listenHost src = true ↔ src = NetSource.loopback) ∧
    listenHostVariant = "0.0.0.0" ∧
    (∀ src, acceptsConnection listenHostVariant src = true) := by
  refine ⟨rfl, ?_, rfl, ?_⟩ <;> intro src <;> cases src <;> simp [acceptsConnection, listenHost, listenHostVariant]

/- ========================================================================
   Orchestrator silent create operation.
   Source: collaboration-room-service.ts lines 107-163, createRoomSilent.
   Awaited external calls are supplied by an environment; Except.error
   models a call that throws.  Observable side effects are collected in an
   ordered trace.
   ======================================================================== -/

/-- Observable side effect of an Orchestrator operation: a credential
write, a fire of the onDidJoinRoom event, or a user-visible VS Code
notification (the silent paths never produce the last one; console
logging is not user-visible and is not traced). -/
inductive Effect where
  | storedUserToken (serverUrl token : String)
  | firedJoined (roomId serverUrl : String) (host : Bool)
  | uiMessage (message : String)
  deriving DecidableEq, Repr

/-- Room claim returned by the createRoom exchange
(Provider.createRoom in the protocol package). -/
structure RoomClaim where
  roomId : String
  roomToken : String
  loginToken : Option String
  deriving DecidableEq, Repr

/-- Environment of one createRoomSilent run: the configured server URL
setting, the RoomUri.normalizeServerUri function (outside the captured
sources, kept abstract), and the outcome of each awaited call in source
order; Except.error means the await threw. -/
structure SilentEnv where
  serverUrlSetting : Option String
  normalize : String → String
  retrieveUserToken : Except String (Option String)
  createConnectionSilent : Except String Unit
  createRoom : Except String RoomClaim
  connect : Except String Unit

/-- Embedding of createRoomSilent.  The whole body is one try block whose
catch returns undefined, so every throwing await turns into a none result
carrying the effects performed so far; on success the login token (when
present) is stored before the joined event is fired and the pair
(roomId, serverUrl) is returned. -/
def createRoomSilent (env : SilentEnv) : Option (String × String) × List Effect :=
  match env.serverUrlSetting with
  | none => (none, [])
  | some raw =>
    let serverUrl := env.normalize raw
    match env.retrieveUserToken with
    | Except.error _ => (none, [])
    | Except.ok _ =>
      match env.createConnectionSilent with
      | Except.error _ => (none, [])
      | Except.ok _ =>
        match env.createRoom with
        | Except.error _ => (none, [])
        | Except.ok claim =>
          let tokenEffects :=
            match claim.loginToken with
            | some t => [Effect.storedUserToken serverUrl t]
            | none => []
          match env.connect with
          | Except.error _ => (none, tokenEffects)
          | Except.ok _ =>
            (some (claim.roomId, serverUrl),
             tokenEffects ++ [Effect.firedJoined claim.roomId serverUrl true])

/-- C8: createRoomSilent never shows a UI notification, fires no joined
event when it fails (returning none to its caller instead of throwing,
since its catch-all converts every exception into the none result), and
on success fires the joined event last, preceded by the stored login
token whenever the exchange returned one. -/
theorem createRoomSilent_contract (env : SilentEnv) :
    (∀ m, Effect.uiMessage m ∉ (createRoomSilent env).2) ∧
    ((createRoomSilent env).1 = none →
      ∀ rid su h, Effect.firedJoined rid su h ∉ (createRoomSilent env).2) ∧
    (∀ rid su, (createRoomSilent env).1 = some (rid, su) →
      ∃ pre, (createRoomSilent env).2 = pre ++ [Effect.firedJoined rid su true] ∧
        ∀ claim t, env.createRoom = Except.ok claim → claim.loginToken = some t →
          Effect.storedUserToken su t ∈ pre) := by
  rcases env with ⟨setting, nf, retrieve, ccs, cr, conn⟩
  rcases setting with _ | raw
  · exact ⟨fun m => by simp [createRoomSilent], fun _ rid su h => by simp [createRoomSilent],
      fun rid su h => Option.noConfusion h⟩
  rcases retrieve with e1 | t1
  · exact ⟨fun m => by simp [createRoomSilent], fun _ rid su h => by simp [createRoomSilent],
      fun rid su h => Option.noConfusion h⟩
  rcases ccs with e2 | u2
  · exact ⟨fun m => by simp [createRoomSilent], fun _ rid su h => by simp [createRoomSilent],
      fun rid su h => Option.noConfusion h⟩
  rcases cr with e3 | ⟨crid, ctok, cltok⟩
  · exact ⟨fun m => by simp [createRoomSilent], fun _ rid su h => by simp [createRoomSilent],
      fun rid su h => Option.noConfusion h⟩
  rcases conn with e4 | u4
  · refine ⟨fun m => ?_, fun _ rid su h => ?_, fun rid su h => Option.noConfusion h⟩ <;>
      rcases cltok with _ | ltok <;> simp [createRoomSilent]
  rcases cltok with _ | ltok
  · refine ⟨fun m => by simp [createRoomSilent], fun hnone => Option.noConfusion hnone, ?_⟩
    intro rid su h
    injection h with h1
    cases h1
    refine ⟨[], rfl, ?_⟩
    intro claim t hcr hlt
    injection hcr with h2
    cases h2
    exact Option.noConfusion hlt
  · refine ⟨fun m => by simp [createRoomSilent], fun hnone => Option.noConfusion hnone, ?_⟩
    intro rid su h
    injection h with h1
    cases h1
    refine ⟨[Effect.storedUserToken (nf raw) ltok], rfl, ?_⟩
    intro claim t hcr hlt
    injection hcr with h2
    cases h2
    injection hlt with h3
    cases h3
    simp

/-- Concrete environment exercising the success path of createRoomSilent
with a login token present. -/
def envA : SilentEnv :=
  { serverUrlSetting := some "https://oct.example"
    normalize := id
    retrieveUserToken := Except.ok none
    createConnectionSilent := Except.ok ()
    createRoom := Except.ok { roomId := "roomA", roomToken := "rtA", loginToken := some "ltA" }
    connect := Except.ok () }

/-- Witness for C8: in the concrete successful run, no UI notification
appears in the trace. -/
theorem createRoomSilent_contract_witness :
    Effect.uiMessage "anything" ∉ (createRoomSilent envA).2 :=
  (createRoomSilent_contract envA).1 "anything"

/- ========================================================================
   Pending-resume record and tryConnect.
   Source: collaboration-room-service.ts lines 41-57, tryConnect; the
   SecretStorage implementation behind consumeRoomData is not among the
   captured sources and is modelled from the spec.
   ======================================================================== -/

/-- Pending-resume record (RoomData in secret-storage.ts); host is the
host peer, of which only the id is used by tryConnect. -/
structure RoomData where
  serverUrl : String
  roomToken : String
  roomId : String
  hostId : String
  deriving DecidableEq, Repr

/-- Modelled from the spec: SecretStorage.consumeRoomData, whose
implementation is not among the captured sources.  Per the spec the
pending-resume record is a one-shot, consumed-on-read record: consuming
it returns the stored record (or none) and clears the store. -/
def consumeRoomData (stored : Option RoomData) : Option RoomData × Option RoomData :=
  (stored, none)

/-- Live collaboration instance as constructed by tryConnect
(instanceFactory argument with host false and hostId roomData.host.id). -/
structure CollabInstance where
  roomId : String
  serverUrl : String
  host : Bool
  hostId : String
  deriving DecidableEq, Repr

/-- Embedding of tryConnect.  The store holds the optional pending-resume
record; conn bundles the outcome of the two awaited connection calls
(createConnection and connect), which tryConnect does not catch, so an
error propagates to the caller.  The result is the returned value, the
store after the call, and the trace of fired events. -/
def tryConnect (conn : Except String Unit) (stored : Option RoomData) :
    Except String (Option CollabInstance) × Option RoomData × List Effect :=
  match consumeRoomData stored with
  | (none, rest) => (Except.ok none, rest, [])
  | (some rd, rest) =>
    match conn with
    | Except.error e => (Except.error e, rest, [])
    | Except.ok _ =>
      (Except.ok (some { roomId := rd.roomId, serverUrl := rd.serverUrl
                         host := false, hostId := rd.hostId }),
       rest,
       [Effect.firedJoined rd.roomId rd.serverUrl false])

/-- C9: the pending-resume record is one-shot: consuming twice with no
intervening write returns the record once and none the second time; a
second tryConnect after any first one returns none with no event, a
tryConnect on an empty store returns none with no event, and a single
tryConnect fires the joined event at most once. -/
theorem consumeRoomData_one_shot (stored : Option RoomData) (c1 c2 : Except String Unit) :
    (consumeRoomData stored).1 = stored ∧
    (consumeRoomData (consumeRoomData stored).2).1 = none ∧
    tryConnect c2 (tryConnect c1 stored).2.1 = (Except.ok none, none, []) ∧
    tryConnect c1 none = (Except.ok none, none, []) ∧
    (tryConnect c1 stored).2.2.length ≤ 1 := by
  refine ⟨rfl, rfl, ?_, rfl, ?_⟩ <;>
    rcases stored with _ | rd <;> rcases c1 with e | u <;>
      simp [tryConnect, consumeRoomData]

/- ========================================================================
   Automation create handler, silent variant.
   Source: part_001 lines 191-214, AutomationService.handleCreateRoom.
   ======================================================================== -/

/-- Embedding of the part_001 handleCreateRoom: it accepts the request
fields serverUrl, username and email but passes none of them on,
delegating to createRoomSilent with no arguments; a some result becomes
a success response, a none result becomes the fixed failure response
(the catch branch is unreachable because createRoomSilent never throws). -/
def handleCreateRoomSilent (serverUrl username email : Option String)
    (env : SilentEnv) : AutomationResponse :=
  match (createRoomSilent env).1 with
  | some (rid, su) =>
    { success := true, roomId := some rid, serverUrl := some su, error := none }
  | none =>
    { success := false, roomId := none, serverUrl := none
      error := some "Failed to create room" }

lemma createRoomSilent_serverUrl (env : SilentEnv) (rid su : String)
    (h : (createRoomSilent env).1 = some (rid, su)) :
    ∃ raw, env.serverUrlSetting = some raw ∧ su = env.normalize raw := by
  rcases env with ⟨setting, nf, retrieve, ccs, cr, conn⟩
  rcases setting with _ | raw
  · exact Option.noConfusion h
  rcases retrieve with e1 | t1
  · exact Option.noConfusion h
  rcases ccs with e2 | u2
  · exact Option.noConfusion h
  rcases cr with e3 | ⟨crid, ctok, cltok⟩
  · exact Option.noConfusion h
  rcases conn with e4 | u4
  · rcases cltok with _ | ltok <;> exact Option.noConfusion h
  · injection h with h1
    cases h1
    exact ⟨raw, rfl, rfl⟩

/-- C10: the silent-create automation response is independent of the
request serverUrl, username and email fields, and any successful
response reports the server URL taken from the configured setting
(normalized), whatever the request carried. -/
theorem handleCreateRoomSilent_ignores_request_fields
    (su1 u1 e1 su2 u2 e2 : Option String) (env : SilentEnv) :
    handleCreateRoomSilent su1 u1 e1 env = handleCreateRoomSilent su2 u2 e2 env ∧
    (∀ raw rid su, env.serverUrlSetting = some raw →
      handleCreateRoomSilent su1 u1 e1 env =
        { success := true, roomId := some rid, serverUrl := some su, error := none } →
      su = env.normalize raw) := by
  constructor
  · rfl
  · intro raw rid su hset hresp
    unfold handleCreateRoomSilent at hresp
    rcases hval : (createRoomSilent env).1 with _ | ⟨rid0, su0⟩
    · rw [hval] at hresp
      simp at hresp
    · rw [hval] at hresp
      have hfields : rid0 = rid ∧ su0 = su := by
        have := hresp
        simp [AutomationResponse.mk.injEq] at this
        exact this
      rcases hfields with ⟨hr, hs⟩
      subst hr
      subst hs
      rcases createRoomSilent_serverUrl env rid0 su0 hval with ⟨raw2, hset2, hsu2⟩
      rw [hset] at hset2
      injection hset2 with h3
      rw [hsu2, h3]

/-- Concrete environment for the C10 witness, with a configured server
URL and a successful exchange. -/
def envB : SilentEnv :=
  { serverUrlSetting := some "https://oct.example"
    normalize := id
    retrieveUserToken := Except.ok none
    createConnectionSilent := Except.ok ()
    createRoom := Except.ok { roomId := "roomB", roomToken := "rtB", loginToken := none }
    connect := Except.ok () }

/-- Witness for C10: two create requests differing in serverUrl, username
and email get the same response, and the reported server URL is the
normalized configured setting. -/
theorem handleCreateRoomSilent_ignores_request_fields_witness :
    handleCreateRoomSilent (some "https://other") (some "alice") (some "alice@mail") envB =
      handleCreateRoomSilent none none none envB ∧
    "https://oct.example" = envB.normalize "https://oct.example" :=
  ⟨(handleCreateRoomSilent_ignores_request_fields (some "https://other") (some "alice")
      (some "alice@mail") none none none envB).1,
   (handleCreateRoomSilent_ignores_request_fields (some "https://other") (some "alice")
      (some "alice@mail") none none none envB).2 "https://oct.example" "roomB"
      "https://oct.example" rfl rfl⟩

/- ========================================================================
   Interleaving model of two concurrent createRoom invocations.
   Source: collaboration-room-service.ts lines 59-101 (createRoom) and
   332-346 (showError).  The orchestrator owns a single CancellationTokenSource;
   starting a createRoom cancels the current source and replaces it with a
   fresh one, so a token of generation g is cancelled exactly when g is
   below the current generation.  Each invocation proceeds through three
   atomic phases separated by its awaits: start (the cancel-and-replace),
   resolution of the createRoom exchange (whose outcome the environment
   chooses; the abort signal forbids a successful resolution once the
   generation is already cancelled, the cooperative-cancellation reading
   most favourable to the code), and the continuation, which on success
   stores, connects and fires the joined event with no cancellation check
   (as in the source), and on failure calls showError with the outer token
   of its own generation.
   ======================================================================== -/

/-- Phase of one createRoom invocation: not yet started, awaiting the
exchange under outer-token generation gen, exchange resolved (ok true
for a successful room claim), or finished. -/
inductive OpPhase where
  | idle
  | running (gen : Nat)
  | exchanged (gen : Nat) (ok : Bool)
  | finished
  deriving DecidableEq, Repr

/-- Observable event of the orchestrator run: a fire of the joined event
or an error report, each tagged with which invocation produced it
(second = false for A, true for B). -/
inductive OrchEvent where
  | joined (second : Bool)
  | reported (second : Bool) (outcome : ErrorOutcome)
  deriving DecidableEq, Repr

/-- State of the orchestrator together with two createRoom invocations A
and B: the generation of the current token source and the ordered list
of events emitted so far. -/
structure OrchState where
  curGen : Nat
  opA : OpPhase
  opB : OpPhase
  events : List OrchEvent
  deriving DecidableEq, Repr

/-- Phase of the selected invocation. -/
def OrchState.getOp (s : OrchState) (second : Bool) : OpPhase :=
  if second then s.opB else s.opA

/-- State with the phase of the selected invocation replaced. -/
def OrchState.setOp (s : OrchState) (second : Bool) (p : OpPhase) : OrchState :=
  if second then { s with opB := p } else { s with opA := p }

/-- Scheduler step: start an invocation (tokenSource.cancel followed by
the fresh source), resolve its pending exchange with an
environment-chosen outcome, or run its continuation after the exchange. -/
inductive OrchStep where
  | start (second : Bool)
  | exchangeResolve (second : Bool) (ok : Bool)
  | continueRun (second : Bool)
  deriving DecidableEq, Repr

/-- Small-step interpreter: none when the step is not enabled in the
current state.  A successful exchange resolution is only enabled while
the generation is not yet cancelled; the success continuation fires the
joined event unconditionally, exactly as the source does. -/
def orchStep (s : OrchState) : OrchStep → Option OrchState
  | OrchStep.start second =>
    match s.getOp second with
    | OpPhase.idle =>
      some { s.setOp second (OpPhase.running (s.curGen + 1)) with curGen := s.curGen + 1 }
    | _ => none
  | OrchStep.exchangeResolve second ok =>
    match s.getOp second with
    | OpPhase.running g =>
      if ok && decide (g < s.curGen) then none
      else some (s.setOp second (OpPhase.exchanged g ok))
    | _ => none
  | OrchStep.continueRun second =>
    match s.getOp second with
    | OpPhase.exchanged g true =>
      some { s.setOp second OpPhase.finished with
             events := s.events ++ [OrchEvent.joined second] }
    | OpPhase.exchanged g false =>
      some { s.setOp second OpPhase.finished with
             events := s.events ++
               [OrchEvent.reported second (showError true (decide (g < s.curGen)) false)] }
    | _ => none

/-- Run of a schedule from a state; none when some step was not enabled. -/
def orchRun : OrchState → List OrchStep → Option OrchState
  | s, [] => some s
  | s, step :: rest =>
    match orchStep s step with
    | some s2 => orchRun s2 rest
    | none => none

/-- Initial orchestrator state: the constructor-made token source is
generation 0 and no invocation has started. -/
def orchInit : OrchState :=
  { curGen := 0, opA := OpPhase.idle, opB := OpPhase.idle, events := [] }

/-- Schedule in which create(B) is issued after create(A)'s exchange has
resolved successfully but before create(A) resolves: A starts, A's
exchange succeeds, B starts (cancelling A's outer scope), B's exchange
succeeds, B's continuation runs, then A's pending continuation runs. -/
def supersededSchedule : List OrchStep :=
  [ OrchStep.start false
  , OrchStep.exchangeResolve false true
  , OrchStep.start true
  , OrchStep.exchangeResolve true true
  , OrchStep.continueRun true
  , OrchStep.continueRun false ]

/-- C1 failing run: in the schedule where create(B) starts before
create(A) resolves (after A's exchange already succeeded), the code
fires the joined event twice, the second fire being A's, because the
success continuation of createRoom performs no cancellation check before
firing; the claimed property (at most one joined event, carrying B's
outcome, and never a second fire for A) is violated. -/
theorem createRoom_superseded_double_joined :
    Option.map OrchState.events (orchRun orchInit supersededSchedule) =
      some [OrchEvent.joined true, OrchEvent.joined false] := by
  rfl

/- ========================================================================
   Broadcast joined event and the automation create handlers.
   Source: automation-service.ts lines 164-203 and part_002 lines
   188-215, AutomationService.handleCreateRoom: each pending request
   subscribes its own listener to the single broadcast onDidJoinRoom
   event, and each listener disposes itself after the first event it
   receives, resolving its pending response from that event's instance.
   ======================================================================== -/

/-- Instance carried by a fire of onDidJoinRoom, with ghost bookkeeping
recording which pending request's operation produced it. -/
structure JoinedInstance where
  creator : Nat
  roomId : String
  serverUrl : String
  deriving DecidableEq, Repr

/-- State of the endpoint: listeners currently subscribed to
onDidJoinRoom (request ids in subscription order) and the responses
resolved so far, each recorded as (request id, creator of the resolving
event, roomId the response carries). -/
structure EndpointState where
  listeners : List Nat
  resolved : List (Nat × Nat × String)
  deriving DecidableEq, Repr

/-- Embedding of the subscription step of handleCreateRoom: the new
request adds its listener to the shared emitter. -/
def subscribeCreate (requestId : Nat) (s : EndpointState) : EndpointState :=
  { s with listeners := s.listeners ++ [requestId] }

/-- Embedding of EventEmitter.fire as observed by the handleCreateRoom
listeners: the event is delivered to every currently subscribed listener
in subscription order; each listener disposes itself and resolves its
pending response with the fired instance's roomId. -/
def fireJoined (inst : JoinedInstance) (s : EndpointState) : EndpointState :=
  { listeners := []
    resolved := s.resolved ++
      s.listeners.map (fun requestId => (requestId, inst.creator, inst.roomId)) }

/-- Endpoint state with no listener and no resolved response. -/
def endpointInit : EndpointState := { listeners := [], resolved := [] }

/-- Scenario of two concurrent automation create requests 1 and 2: both
subscribe, then the joined event produced by request 2's own operation
fires (request 1's operation was superseded and produced none). -/
def crossResolveScenario : EndpointState :=
  fireJoined { creator := 2, roomId := "roomB", serverUrl := "https://oct.example" }
    (subscribeCreate 2 (subscribeCreate 1 endpointInit))

/-- C2 failing run: the one broadcast fire resolves both pending create
requests, and request 1's response carries the roomId of the room
created by request 2's operation, contradicting the claim that each
response carries its own operation's roomId and that the subscription
scoping prevents one event from cross-resolving both pending responses. -/
theorem handleCreateRoom_cross_resolves :
    crossResolveScenario.resolved = [(1, 2, "roomB"), (2, 2, "roomB")] := by
  rfl

end OCT
